import Mathlib

/-!
# repo-migration: a shallow embedding of `main.go`

The Go program reads a list of GitHub repository URLs, turns each one into a
Gitea migration request (`createImportRequest`) and posts it to the Gitea API
(`sendRequest`).  This file embeds these functions and the batch loop of `main`
and proves properties of them.

Modelling conventions:

* a Go `string` is an immutable sequence of bytes: `GoString = List (Fin 256)`;
* a Go `error` value is represented by its message (`errors.New msg`), the
  `nil` error by `none`;
* a run-time panic (slice index out of range) is an explicit outcome, so that
  the absence of panics is a theorem and not an artefact of the model;
* the standard library and the network are not part of the repository:
  `json.Marshal`, `http.NewRequest` and `http.DefaultClient.Do` are fields of
  an environment record, the last one threading an arbitrary world state.
-/

namespace RepoMigration

/-! ## Strings -/

/-- A Go string: a sequence of bytes. -/
abbrev GoString := List (Fin 256)

/-- The bytes of an ASCII string literal of the source. -/
def str (s : String) : GoString :=
  s.toList.map fun c => Fin.ofNat c.toNat

/-- The byte `'/'`. -/
def slash : Fin 256 := 47

/-- The byte `'\n'`. -/
def newline : Fin 256 := 10

/-- The byte `'_'`. -/
def underscore : Fin 256 := 95

namespace strings

/-- Go's `strings.Split(s, sep)` for a one-byte separator `sep` (both call
sites of the program pass a one-byte separator, `"/"` and `"\n"`): the
substrings between the occurrences of `sep`, in order.  A string without any
occurrence of `sep`, the empty string included, yields one segment. -/
def Split : GoString → Fin 256 → List GoString
  | [], _ => [[]]
  | c :: cs, sep =>
    if c = sep then [] :: Split cs sep
    else
      match Split cs sep with
      | [] => [[c]]
      | p :: ps => (c :: p) :: ps

end strings

/-! ## Data types -/

/-- The Go struct `applicationConfiguration`. -/
structure applicationConfiguration where
  GithubToken : GoString
  GiteaToken : GoString
  GiteaOrganization : GoString
  GiteaUrl : GoString
  MirrorInterval : GoString
  Private : Bool
  Issues : Bool
  Labels : Bool
  Lfs : Bool
  Milestones : Bool
  PullRequests : Bool
  Releases : Bool
  Wiki : Bool
  deriving DecidableEq

/-- The Go struct `giteaImportRequest`. -/
structure giteaImportRequest where
  AuthToken : GoString
  CloneAddress : GoString
  Service : GoString
  Mirror : Bool
  MirrorInterval : GoString
  Private : Bool
  RepoName : GoString
  RepoOwner : GoString
  Issues : Bool
  Labels : Bool
  Lfs : Bool
  Milestones : Bool
  PullRequests : Bool
  Releases : Bool
  Wiki : Bool
  deriving DecidableEq

/-- The outcome of a Go function returning `(*T, error)` that may also panic. -/
inductive Result (α : Type) where
  /-- A value and a `nil` error. -/
  | ok (value : α)
  /-- A `nil` value and the error `errors.New msg`. -/
  | error (msg : GoString)
  /-- A run-time panic (index out of range). -/
  | panic
  deriving DecidableEq

/-- Slice indexing `parts[i]`: panics when `i` is out of range. -/
def index (parts : List GoString) (i : Nat) : Result GoString :=
  match parts[i]? with
  | some p => .ok p
  | none => .panic

/-! ## `createImportRequest` -/

/-- The Go function `createImportRequest`; the global `config` is an explicit
argument. -/
def createImportRequest (config : applicationConfiguration) (url : GoString) :
    Result giteaImportRequest :=
  if url.length = 0 then
    .error (str "empty repo url")
  else
    let parts := strings.Split url slash
    if parts.length ≠ 5 then
      .error (str "malformed github url")
    else
      match index parts 2 with
      | .panic => .panic
      | .error e => .error e
      | .ok host =>
        if host ≠ str "github.com" then
          .error (str "nt a github url")
        else
          match index parts 3 with
          | .panic => .panic
          | .error e => .error e
          | .ok owner =>
            if owner.length = 0 then
              .error (str "empty owner name")
            else
              match index parts 4 with
              | .panic => .panic
              | .error e => .error e
              | .ok repo =>
                if repo.length = 0 then
                  .error (str "empty repo name")
                else
                  .ok
                    { AuthToken := config.GithubToken
                      CloneAddress := url
                      Service := str "github"
                      Mirror := true
                      MirrorInterval := config.MirrorInterval
                      Private := config.Private
                      RepoName := owner ++ str "__" ++ repo
                      RepoOwner := config.GiteaOrganization
                      Issues := config.Issues
                      Labels := config.Labels
                      Lfs := config.Lfs
                      Milestones := config.Milestones
                      PullRequests := config.PullRequests
                      Releases := config.Releases
                      Wiki := config.Wiki }

/-- The request `createImportRequest` builds from a URL and its owner and
repository segments. -/
def builtRequest (config : applicationConfiguration) (url owner repo : GoString) :
    giteaImportRequest :=
  { AuthToken := config.GithubToken
    CloneAddress := url
    Service := str "github"
    Mirror := true
    MirrorInterval := config.MirrorInterval
    Private := config.Private
    RepoName := owner ++ str "__" ++ repo
    RepoOwner := config.GiteaOrganization
    Issues := config.Issues
    Labels := config.Labels
    Lfs := config.Lfs
    Milestones := config.Milestones
    PullRequests := config.PullRequests
    Releases := config.Releases
    Wiki := config.Wiki }

/-! ## `sendRequest` -/

/-- The part of `http.Request` the program sets. -/
structure Request where
  Method : GoString
  URL : GoString
  Header : List (GoString × GoString)
  Body : GoString
  deriving DecidableEq

/-- The part of `http.Response` the program reads. -/
structure Response where
  Status : GoString
  StatusCode : Int
  deriving DecidableEq

/-- `request.Header.Set(key, value)`: the entries of `key` are replaced by the
single entry `value`. -/
def Request.setHeader (request : Request) (key value : GoString) : Request :=
  { request with Header := request.Header.filter (fun kv => kv.1 ≠ key) ++ [(key, value)] }

/-- What `sendRequest` calls outside the repository.  `Marshal` is
`json.Marshal`, `NewRequest` is `http.NewRequest` (method, url, body) and `Do`
is `http.DefaultClient.Do`, which reads and changes the world `σ`: it returns
either a transport error or the response received. -/
structure Env (σ : Type) where
  Marshal : giteaImportRequest → Except GoString GoString
  NewRequest : GoString → GoString → GoString → Except GoString Request
  Do : σ → Request → Except GoString Response × σ

/-- `http.StatusCreated`. -/
def StatusCreated : Int := 201

/-- The Go function `sendRequest`: the returned error (`none` is `nil`) and the
world after the call. -/
def sendRequest {σ : Type} (env : Env σ) (config : applicationConfiguration) (w : σ)
    (importRequest : giteaImportRequest) : Option GoString × σ :=
  let url := config.GiteaUrl ++ str "/api/v1/repos/migrate"
  match env.Marshal importRequest with
  | .error err => (some err, w)
  | .ok body =>
    match env.NewRequest (str "POST") url body with
    | .error err => (some err, w)
    | .ok request =>
      let request := request.setHeader (str "Authorization") (str "token " ++ config.GiteaToken)
      let request := request.setHeader (str "Content-Type") (str "application/json")
      match env.Do w request with
      | (.error err, w1) => (some err, w1)
      | (.ok response, w1) =>
        if response.StatusCode ≠ StatusCreated then
          (some (str "wrong status " ++ response.Status), w1)
        else
          (none, w1)

/-! ## The batch loop of `main` -/

/-- What a run of `main` does, in order: the calls of the two functions of the
program (ghost events, recorded to state which calls were made), the log lines
written through logrus (the formatted message; the timestamp and level that
logrus adds are left out), and a crash. -/
inductive Event where
  /-- A call `createImportRequest(url)`. -/
  | callCreateImportRequest (url : GoString)
  /-- A call `sendRequest(request)`. -/
  | callSendRequest (request : giteaImportRequest)
  /-- A line written by `log.Errorf`. -/
  | Errorf (line : GoString)
  /-- A line written by `log.Infof`. -/
  | Infof (line : GoString)
  /-- A line written by `log.Fatalf`, which then exits the process. -/
  | Fatalf (line : GoString)
  /-- A run-time panic, which ends the process. -/
  | panic
  deriving DecidableEq

/-- One iteration of `for _, repo := range repos`: its events, the world after
it, and whether the process is still running. -/
def loopBody {σ : Type} (env : Env σ) (config : applicationConfiguration) (w : σ)
    (repo : GoString) : List Event × σ × Bool :=
  match createImportRequest config repo with
  | .panic => ([.callCreateImportRequest repo, .panic], w, false)
  | .error err =>
    ([.callCreateImportRequest repo,
      .Errorf (str "unable to create import request for " ++ repo ++ str ": " ++ err)],
     w, true)
  | .ok request =>
    let sent := sendRequest env config w request
    let onError :=
      match sent.1 with
      | some err => [Event.Errorf (str "unable to send import request for " ++ repo ++ str ": " ++ err)]
      | none => []
    ([.callCreateImportRequest repo, .callSendRequest request] ++ onError
      ++ [.Infof (repo ++ str " imported")],
     sent.2, true)

/-- The loop `for _, repo := range repos` of `main`. -/
def mainLoop {σ : Type} (env : Env σ) (config : applicationConfiguration) :
    σ → List GoString → List Event × σ
  | w, [] => ([], w)
  | w, repo :: repos =>
    match loopBody env config w repo with
    | (events, w1, true) =>
      let rest := mainLoop env config w1 repos
      (events ++ rest.1, rest.2)
    | (events, w1, false) => (events, w1)

/-- The Go function `main`; `readFile` is the result of `os.ReadFile("repos.txt")`. -/
def main {σ : Type} (env : Env σ) (config : applicationConfiguration) (w : σ)
    (readFile : Except GoString GoString) : List Event × σ :=
  match readFile with
  | .error err => ([.Fatalf (str "unable to read repos file: " ++ err)], w)
  | .ok fileBytes => mainLoop env config w (strings.Split fileBytes newline)

/-! ## Reading a trace -/

/-- The log lines of a trace, in order. -/
def logLines (events : List Event) : List Event :=
  events.filter fun e =>
    match e with
    | .Errorf _ => true
    | .Infof _ => true
    | .Fatalf _ => true
    | _ => false

/-- The calls of a trace, in order. -/
def calls (events : List Event) : List Event :=
  events.filter fun e =>
    match e with
    | .callCreateImportRequest _ => true
    | .callSendRequest _ => true
    | _ => false

/-- The calls one input line is expected to cause: `createImportRequest` on the
line, then `sendRequest` on the request if there is one. -/
def expectedCalls (config : applicationConfiguration) (repo : GoString) : List Event :=
  match createImportRequest config repo with
  | .ok request => [.callCreateImportRequest repo, .callSendRequest request]
  | _ => [.callCreateImportRequest repo]

/-- The requests built from the input lines that `createImportRequest`
accepts, in input order. -/
def acceptedRequests (config : applicationConfiguration) (repos : List GoString) :
    List giteaImportRequest :=
  repos.filterMap fun repo =>
    match createImportRequest config repo with
    | .ok request => some request
    | _ => none

/-- The world after running `sendRequest` on each request of a list, one after
the other, each run starting in the world the previous one left. -/
def worldAfterSending {σ : Type} (env : Env σ) (config : applicationConfiguration) (w : σ)
    (requests : List giteaImportRequest) : σ :=
  requests.foldl (fun w1 request => (sendRequest env config w1 request).2) w

/-! ## Concrete data for evaluation -/

/-- A configuration used for concrete evaluations. -/
def sampleConfig : applicationConfiguration :=
  { GithubToken := str "ghp_token"
    GiteaToken := str "gitea_token"
    GiteaOrganization := str "mirrors"
    GiteaUrl := str "https://gitea.example.org"
    MirrorInterval := str "24h0m0s"
    Private := false
    Issues := true
    Labels := false
    Lfs := true
    Milestones := false
    PullRequests := true
    Releases := false
    Wiki := true }

/-- An environment for concrete evaluations.  The world is the list of the
status codes the server will answer with, one per request; when the list is
exhausted the transport fails. -/
def sampleEnv : Env (List (GoString × Int)) :=
  { Marshal := fun r => .ok (str "\x7b\"clone_addr\":\"" ++ r.CloneAddress ++ str "\"\x7d")
    NewRequest := fun method url body =>
      .ok { Method := method, URL := url, Header := [], Body := body }
    Do := fun w _ =>
      match w with
      | [] => (.error (str "connection refused"), [])
      | (status, code) :: rest => (.ok { Status := status, StatusCode := code }, rest) }

/-- An environment for concrete evaluations whose world is the list of the
HTTP requests the server has received so far; the server answers every request
with status 500. -/
def recordingEnv : Env (List Request) :=
  { Marshal := fun r => .ok (str "\x7b\"clone_addr\":\"" ++ r.CloneAddress ++ str "\"\x7d")
    NewRequest := fun method url body =>
      .ok { Method := method, URL := url, Header := [], Body := body }
    Do := fun w request =>
      (.ok { Status := str "500 Internal Server Error", StatusCode := 500 }, w ++ [request]) }

/-! ## Lemmas on `strings.Split` -/

theorem Split_ne_nil (s : GoString) (sep : Fin 256) : strings.Split s sep ≠ [] := by
  induction s with
  | nil => simp [strings.Split]
  | cons c cs ih =>
    unfold strings.Split
    split
    · simp
    · split <;> simp

theorem Split_cons_sep (cs : GoString) (sep : Fin 256) :
    strings.Split (sep :: cs) sep = [] :: strings.Split cs sep := by
  simp [strings.Split]

theorem Split_cons_ne (c : Fin 256) (cs : GoString) (sep : Fin 256) (h : c ≠ sep) :
    ∃ p ps, strings.Split cs sep = p :: ps ∧ strings.Split (c :: cs) sep = (c :: p) :: ps := by
  rcases hs : strings.Split cs sep with _ | ⟨p, ps⟩
  · exact absurd hs (Split_ne_nil cs sep)
  · exact ⟨p, ps, rfl, by simp [strings.Split, h, hs]⟩

/-- The number of segments is one more than the number of separators. -/
theorem length_Split (s : GoString) (sep : Fin 256) :
    (strings.Split s sep).length = s.count sep + 1 := by
  induction s with
  | nil => simp [strings.Split]
  | cons c cs ih =>
    by_cases h : c = sep
    · subst h
      simp [Split_cons_sep, ih]
    · obtain ⟨p, ps, h1, h2⟩ := Split_cons_ne c cs sep h
      rw [h2, List.count_cons_of_ne (Ne.symm h), ← ih, h1]
      simp

/-- A string without separator is its own single segment. -/
theorem Split_of_not_mem (s : GoString) (sep : Fin 256) (h : sep ∉ s) :
    strings.Split s sep = [s] := by
  induction s with
  | nil => simp [strings.Split]
  | cons c cs ih =>
    have hc : c ≠ sep := fun e => h (by simp [e])
    have hcs : sep ∉ cs := fun e => h (by simp [e])
    simp [strings.Split, hc, ih hcs]

/-- Splitting at the first separator. -/
theorem Split_append_sep_cons (a b : GoString) (sep : Fin 256) (h : sep ∉ a) :
    strings.Split (a ++ sep :: b) sep = a :: strings.Split b sep := by
  induction a with
  | nil => simp [strings.Split]
  | cons c cs ih =>
    have hc : c ≠ sep := fun e => h (by simp [e])
    have hcs : sep ∉ cs := fun e => h (by simp [e])
    simp [strings.Split, hc, ih hcs]

/-- A string ending in the separator has an empty last segment. -/
theorem Split_append_sep (s : GoString) (sep : Fin 256) :
    strings.Split (s ++ [sep]) sep = strings.Split s sep ++ [[]] := by
  induction s with
  | nil => simp [strings.Split]
  | cons c cs ih =>
    by_cases h : c = sep
    · subst h
      simp [Split_cons_sep, ih]
    · obtain ⟨p, ps, h1, h2⟩ := Split_cons_ne c cs sep h
      have h3 : strings.Split (c :: (cs ++ [sep])) sep = (c :: p) :: (ps ++ [[]]) := by
        simp [strings.Split, h, ih, h1]
      simpa [h2] using h3

/-! ## Lemmas on `createImportRequest` -/

/-- The function `createImportRequest` without the index checks: a case
analysis on the segments of the URL. -/
theorem createImportRequest_eq (config : applicationConfiguration) (url : GoString) :
    createImportRequest config url =
      if url = [] then .error (str "empty repo url")
      else
        match strings.Split url slash with
        | [_, _, host, owner, repo] =>
          if host ≠ str "github.com" then .error (str "nt a github url")
          else if owner = [] then .error (str "empty owner name")
          else if repo = [] then .error (str "empty repo name")
          else .ok (builtRequest config url owner repo)
        | _ => .error (str "malformed github url") := by
  unfold createImportRequest
  by_cases hu : url = []
  · simp [hu]
  · rcases hparts : strings.Split url slash with
      _ | ⟨p0, _ | ⟨p1, _ | ⟨p2, _ | ⟨p3, _ | ⟨p4, _ | ⟨p5, t⟩⟩⟩⟩⟩⟩ <;>
      simp [hu, index, builtRequest]

/-- The function `createImportRequest` never panics. -/
theorem createImportRequest_ne_panic (config : applicationConfiguration) (url : GoString) :
    createImportRequest config url ≠ .panic := by
  rw [createImportRequest_eq]
  split
  · simp
  · split
    · split_ifs <;> simp
    · simp

/-- Acceptance, in terms of the segments of the URL. -/
theorem createImportRequest_eq_ok_iff (config : applicationConfiguration) (url : GoString)
    (request : giteaImportRequest) :
    createImportRequest config url = .ok request ↔
      ∃ p0 p1 owner repo,
        strings.Split url slash = [p0, p1, str "github.com", owner, repo] ∧
        owner ≠ [] ∧ repo ≠ [] ∧ request = builtRequest config url owner repo := by
  rw [createImportRequest_eq]
  constructor
  · intro h
    split at h
    · simp at h
    · split at h
      · rename_i p0 p1 host owner repo hparts
        split_ifs at h with h1 h2 h3
        · simp only [not_not] at h1
          subst h1
          exact ⟨p0, p1, owner, repo, hparts, h2, h3, by simpa [eq_comm] using h⟩
      · simp at h
  · rintro ⟨p0, p1, owner, repo, hparts, ho, hr, rfl⟩
    have hu : url ≠ [] := by
      rintro rfl
      simp [strings.Split] at hparts
    simp [hu, hparts, ho, hr]

/-- The segments of the sample URL. -/
theorem Split_sample :
    strings.Split (str "https://github.com/acme/widgets") slash =
      [str "https:", [], str "github.com", str "acme", str "widgets"] := by
  decide

/-- A non-empty URL whose split has not exactly 5 segments is malformed. -/
theorem createImportRequest_of_length_ne (config : applicationConfiguration) (url : GoString)
    (hne : url ≠ []) (hlen : (strings.Split url slash).length ≠ 5) :
    createImportRequest config url = .error (str "malformed github url") := by
  rw [createImportRequest_eq]
  rcases hparts : strings.Split url slash with
    _ | ⟨p0, _ | ⟨p1, _ | ⟨p2, _ | ⟨p3, _ | ⟨p4, _ | ⟨p5, t⟩⟩⟩⟩⟩⟩ <;>
    simp_all

/-- The prefix `"https://github.com/"`, segment by segment. -/
theorem str_github_base :
    str "https://github.com/" = str "https:" ++ slash :: ([] ++ slash :: (str "github.com" ++ [slash])) := by
  decide

/-- The segments of `https://github.com/<owner>/<rest>` when `owner` and `rest`
hold no slash. -/
theorem Split_github_url (owner rest : GoString) (ho : slash ∉ owner) (hr : slash ∉ rest) :
    strings.Split (str "https://github.com/" ++ owner ++ str "/" ++ rest) slash =
      [str "https:", [], str "github.com", owner, rest] := by
  have e : str "https://github.com/" ++ owner ++ str "/" ++ rest =
      str "https:" ++ slash :: ([] ++ slash :: (str "github.com" ++ slash :: (owner ++ slash :: rest))) := by
    rw [str_github_base]
    have : str "/" = [slash] := by decide
    simp [this]
  rw [e, Split_append_sep_cons _ _ _ (by decide), Split_append_sep_cons _ _ _ (by simp),
    Split_append_sep_cons _ _ _ (by decide), Split_append_sep_cons _ _ _ ho,
    Split_of_not_mem _ _ hr]

/-- A URL `https://github.com/<owner>/<rest>` whose `rest` holds a slash has at
least 6 segments. -/
theorem length_Split_github_url (owner rest : GoString) (hr : slash ∈ rest) :
    (strings.Split (str "https://github.com/" ++ owner ++ str "/" ++ rest) slash).length ≠ 5 := by
  rw [length_Split]
  have h1 : List.count slash (str "https://github.com/") = 3 := by decide
  have h2 : List.count slash (str "/") = 1 := by decide
  have h3 : 0 < List.count slash rest := List.count_pos_iff.mpr hr
  simp only [List.count_append, h1, h2]
  omega

/-- The bytes of a literal are what `str` gives for `"https://github.com/"`: it
is not empty. -/
theorem github_url_ne_nil (owner rest : GoString) :
    str "https://github.com/" ++ owner ++ str "/" ++ rest ≠ [] := by
  have : str "https://github.com/" ≠ [] := by decide
  simp [this]

/-! ### The loop -/

/-- An iteration of the loop never ends the process. -/
theorem loopBody_running {σ : Type} (env : Env σ) (config : applicationConfiguration) (w : σ)
    (repo : GoString) : (loopBody env config w repo).2.2 = true := by
  unfold loopBody
  split
  · rename_i h
    exact absurd h (createImportRequest_ne_panic config repo)
  · rfl
  · rfl

/-- The loop, one iteration after the other. -/
theorem mainLoop_cons {σ : Type} (env : Env σ) (config : applicationConfiguration) (w : σ)
    (repo : GoString) (repos : List GoString) :
    mainLoop env config w (repo :: repos) =
      ((loopBody env config w repo).1
          ++ (mainLoop env config (loopBody env config w repo).2.1 repos).1,
        (mainLoop env config (loopBody env config w repo).2.1 repos).2) := by
  have h := loopBody_running env config w repo
  rcases hb : loopBody env config w repo with ⟨events, w1, b⟩
  rw [hb] at h
  simp only at h
  subst h
  simp [mainLoop, hb]

/-- The calls of one iteration. -/
theorem calls_loopBody {σ : Type} (env : Env σ) (config : applicationConfiguration) (w : σ)
    (repo : GoString) : calls (loopBody env config w repo).1 = expectedCalls config repo := by
  unfold loopBody expectedCalls
  rcases hc : createImportRequest config repo with request | msg | _
  · rcases hs : (sendRequest env config w request).1 with _ | err <;> simp [calls, hs]
  · simp [calls]
  · exact absurd hc (createImportRequest_ne_panic config repo)

/-- The calls of the whole loop. -/
theorem calls_mainLoop {σ : Type} (env : Env σ) (config : applicationConfiguration) (w : σ)
    (repos : List GoString) :
    calls (mainLoop env config w repos).1 = repos.flatMap (expectedCalls config) := by
  induction repos generalizing w with
  | nil => simp [mainLoop, calls]
  | cons repo repos ih =>
    rw [mainLoop_cons]
    have := ih (loopBody env config w repo).2.1
    simp only [calls, List.filter_append, List.flatMap_cons] at this ⊢
    rw [this]
    congr 1
    exact calls_loopBody env config w repo

/-- The world after one iteration: the one `sendRequest` leaves when the line
is accepted, the one before otherwise. -/
theorem world_loopBody {σ : Type} (env : Env σ) (config : applicationConfiguration) (w : σ)
    (repo : GoString) :
    (loopBody env config w repo).2.1 =
      worldAfterSending env config w (acceptedRequests config [repo]) := by
  unfold loopBody
  rcases hc : createImportRequest config repo with request | msg | _ <;>
    simp [worldAfterSending, acceptedRequests, hc]

/-- The accepted requests of a list, line by line. -/
theorem acceptedRequests_cons (config : applicationConfiguration) (repo : GoString)
    (repos : List GoString) :
    acceptedRequests config (repo :: repos) =
      acceptedRequests config [repo] ++ acceptedRequests config repos := by
  unfold acceptedRequests
  rcases hc : createImportRequest config repo with request | msg | _ <;>
    simp [List.filterMap_cons, hc]

/-- The world after the whole loop: `sendRequest` has run on the accepted
requests, in input order, and on nothing else. -/
theorem world_mainLoop {σ : Type} (env : Env σ) (config : applicationConfiguration) (w : σ)
    (repos : List GoString) :
    (mainLoop env config w repos).2 =
      worldAfterSending env config w (acceptedRequests config repos) := by
  induction repos generalizing w with
  | nil => simp [mainLoop, worldAfterSending, acceptedRequests]
  | cons repo repos ih =>
    rw [mainLoop_cons, acceptedRequests_cons]
    simp only [ih, world_loopBody, worldAfterSending, List.foldl_append]

/-- No iteration panics. -/
theorem panic_not_mem_mainLoop {σ : Type} (env : Env σ) (config : applicationConfiguration)
    (w : σ) (repos : List GoString) : Event.panic ∉ (mainLoop env config w repos).1 := by
  induction repos generalizing w with
  | nil => simp [mainLoop]
  | cons repo repos ih =>
    rw [mainLoop_cons]
    have hb : Event.panic ∉ (loopBody env config w repo).1 := by
      unfold loopBody
      rcases hc : createImportRequest config repo with request | msg | _
      · rcases hs : (sendRequest env config w request).1 with _ | err <;> simp [hs]
      · simp
      · exact absurd hc (createImportRequest_ne_panic config repo)
    simp [hb, ih]

/-- The loop over a concatenation of two lists. -/
theorem mainLoop_append {σ : Type} (env : Env σ) (config : applicationConfiguration) (w : σ)
    (xs ys : List GoString) :
    mainLoop env config w (xs ++ ys) =
      ((mainLoop env config w xs).1 ++ (mainLoop env config (mainLoop env config w xs).2 ys).1,
        (mainLoop env config (mainLoop env config w xs).2 ys).2) := by
  induction xs generalizing w with
  | nil => simp [mainLoop]
  | cons x xs ih =>
    rw [List.cons_append, mainLoop_cons, mainLoop_cons, ih]
    simp

/-- The log lines of one iteration: the validation error; or the success line,
preceded by the error line when `sendRequest` failed. -/
theorem logLines_loopBody {σ : Type} (env : Env σ) (config : applicationConfiguration) (w : σ)
    (repo : GoString) :
    logLines (loopBody env config w repo).1 =
      match createImportRequest config repo with
      | .panic => []
      | .error err =>
        [.Errorf (str "unable to create import request for " ++ repo ++ str ": " ++ err)]
      | .ok request =>
        match (sendRequest env config w request).1 with
        | some err =>
          [.Errorf (str "unable to send import request for " ++ repo ++ str ": " ++ err),
            .Infof (repo ++ str " imported")]
        | none => [.Infof (repo ++ str " imported")] := by
  unfold loopBody
  rcases hc : createImportRequest config repo with request | msg | _
  · rcases hs : (sendRequest env config w request).1 with _ | err <;> simp [logLines, hs]
  · simp [logLines]
  · simp [logLines]

/-! ### The derived name -/

/-- The separator of the derived name is two underscores. -/
theorem str_separator : str "__" = [underscore, underscore] := by
  decide

/-- The one-byte string `"_"`. -/
theorem str_underscore : str "_" = [underscore] := by
  decide

/-- Owners can be read back from the derived name when none of them holds the
separator `"__"` or ends in `"_"`. -/
theorem RepoName_injective (o1 o2 p1 p2 : GoString)
    (hi1 : ¬ str "__" <:+: o1) (ht1 : ¬ str "_" <:+ o1)
    (hi2 : ¬ str "__" <:+: o2) (ht2 : ¬ str "_" <:+ o2)
    (h : o1 ++ str "__" ++ p1 = o2 ++ str "__" ++ p2) : o1 = o2 ∧ p1 = p2 := by
  rw [str_separator] at h hi1 hi2
  rw [str_underscore] at ht1 ht2
  rw [List.append_assoc, List.append_assoc, List.append_eq_append_iff] at h
  rcases h with ⟨d, ho, hp⟩ | ⟨d, ho, hp⟩
  · rcases d with _ | ⟨x, _ | ⟨y, t⟩⟩
    · simp only [List.append_nil, List.nil_append] at ho hp
      exact ⟨ho.symm, List.append_cancel_left hp⟩
    · simp only [List.cons_append, List.nil_append, List.cons.injEq] at hp
      exact absurd ⟨o1, by rw [ho, ← hp.1]⟩ ht2
    · simp only [List.cons_append, List.cons.injEq] at hp
      exact absurd ⟨o1, t, by rw [ho, ← hp.1, ← hp.2.1]; simp⟩ hi2
  · rcases d with _ | ⟨x, _ | ⟨y, t⟩⟩
    · simp only [List.append_nil, List.nil_append] at ho hp
      exact ⟨ho, (List.append_cancel_left hp).symm⟩
    · simp only [List.cons_append, List.nil_append, List.cons.injEq] at hp
      exact absurd ⟨o2, by rw [ho, ← hp.1]⟩ ht1
    · simp only [List.cons_append, List.cons.injEq] at hp
      exact absurd ⟨o2, t, by rw [ho, ← hp.1, ← hp.2.1]; simp⟩ hi1

/-- An owner ending in `"_"` can collide: `a_/c` and `a/_c` are both accepted
and both named `a___c`. -/
theorem RepoName_collision_trailing_underscore :
    createImportRequest sampleConfig (str "https://github.com/a_/c")
      = .ok (builtRequest sampleConfig (str "https://github.com/a_/c") (str "a_") (str "c")) ∧
    createImportRequest sampleConfig (str "https://github.com/a/_c")
      = .ok (builtRequest sampleConfig (str "https://github.com/a/_c") (str "a") (str "_c")) ∧
    (builtRequest sampleConfig (str "https://github.com/a_/c") (str "a_") (str "c")).RepoName
      = (builtRequest sampleConfig (str "https://github.com/a/_c") (str "a")
          (str "_c")).RepoName := by
  decide

/-! ## The claims -/

/-- C1: `createImportRequest` applies its five checks in the fixed order, the
first failing one deciding the result: the empty-URL error for an empty `url`;
otherwise the malformed-URL error when the split on `'/'` has not exactly 5
segments; otherwise the wrong-host error when the third segment is not
`"github.com"`; otherwise the empty-owner error when the fourth segment is
empty; otherwise the empty-repo error when the fifth segment is empty.  A
request is returned exactly when none of the five checks fails, and the five
errors are pairwise distinct. -/
theorem createImportRequest_checks_in_order (config : applicationConfiguration)
    (url : GoString) :
    (url.length = 0 → createImportRequest config url = .error (str "empty repo url")) ∧
    (url.length ≠ 0 → (strings.Split url slash).length ≠ 5 →
      createImportRequest config url = .error (str "malformed github url")) ∧
    (url.length ≠ 0 → (strings.Split url slash).length = 5 →
      (strings.Split url slash)[2]? ≠ some (str "github.com") →
      createImportRequest config url = .error (str "nt a github url")) ∧
    (url.length ≠ 0 → (strings.Split url slash).length = 5 →
      (strings.Split url slash)[2]? = some (str "github.com") →
      (strings.Split url slash)[3]? = some [] →
      createImportRequest config url = .error (str "empty owner name")) ∧
    (url.length ≠ 0 → (strings.Split url slash).length = 5 →
      (strings.Split url slash)[2]? = some (str "github.com") →
      (strings.Split url slash)[3]? ≠ some [] →
      (strings.Split url slash)[4]? = some [] →
      createImportRequest config url = .error (str "empty repo name")) ∧
    ((∃ request, createImportRequest config url = .ok request) ↔
      (url.length ≠ 0 ∧ (strings.Split url slash).length = 5 ∧
        (strings.Split url slash)[2]? = some (str "github.com") ∧
        (strings.Split url slash)[3]? ≠ some [] ∧
        (strings.Split url slash)[4]? ≠ some [])) ∧
    [str "empty repo url", str "malformed github url", str "nt a github url",
      str "empty owner name", str "empty repo name"].Pairwise (fun a b => a ≠ b) := by
  refine ⟨?_, ?_, ?_, ?_, ?_, ?_, by decide⟩
  · intro h
    simp [createImportRequest, h]
  all_goals
    rw [createImportRequest_eq]
    rcases hparts : strings.Split url slash with
      _ | ⟨p0, _ | ⟨p1, _ | ⟨p2, _ | ⟨p3, _ | ⟨p4, _ | ⟨p5, t⟩⟩⟩⟩⟩⟩ <;>
      simp +contextual [List.length_eq_zero]
  all_goals first
    | (intro x; split_ifs <;> simp)
    | (split_ifs <;> simp_all)

/-- Witness of C1 at the sample URL: no check fails and a request is returned. -/
theorem createImportRequest_checks_in_order_witness :
    ∃ request, createImportRequest sampleConfig (str "https://github.com/acme/widgets")
      = .ok request :=
  (createImportRequest_checks_in_order sampleConfig
    (str "https://github.com/acme/widgets")).2.2.2.2.2.1.mpr (by decide)

/-- C2: when a response is received, `sendRequest` returns no error if and only
if the status code is 201; for every other status code it returns the error
`"wrong status "` followed by the literal status text of the response. -/
theorem sendRequest_classifies_response {σ : Type} (env : Env σ)
    (config : applicationConfiguration) (w w1 : σ) (importRequest : giteaImportRequest)
    (body : GoString) (request : Request) (response : Response)
    (hMarshal : env.Marshal importRequest = .ok body)
    (hNew : env.NewRequest (str "POST") (config.GiteaUrl ++ str "/api/v1/repos/migrate") body
      = .ok request)
    (hDo : env.Do w
      ((request.setHeader (str "Authorization") (str "token " ++ config.GiteaToken)).setHeader
        (str "Content-Type") (str "application/json")) = (.ok response, w1)) :
    ((sendRequest env config w importRequest).1 = none ↔ response.StatusCode = 201) ∧
    (response.StatusCode ≠ 201 →
      (sendRequest env config w importRequest).1
        = some (str "wrong status " ++ response.Status)) := by
  unfold sendRequest
  simp only [hMarshal, hNew, hDo, StatusCreated]
  by_cases h : response.StatusCode = 201 <;> simp [h]

/-- Witness of C2: a `500` answer to the request for the sample URL. -/
theorem sendRequest_classifies_response_witness :
    ((sendRequest sampleEnv sampleConfig [(str "500 Internal Server Error", 500)]
        (builtRequest sampleConfig (str "https://github.com/acme/widgets") (str "acme")
          (str "widgets"))).1 = none ↔ (500 : Int) = 201) ∧
    ((500 : Int) ≠ 201 →
      (sendRequest sampleEnv sampleConfig [(str "500 Internal Server Error", 500)]
        (builtRequest sampleConfig (str "https://github.com/acme/widgets") (str "acme")
          (str "widgets"))).1 = some (str "wrong status " ++ str "500 Internal Server Error")) :=
  sendRequest_classifies_response sampleEnv sampleConfig
    [(str "500 Internal Server Error", 500)] []
    (builtRequest sampleConfig (str "https://github.com/acme/widgets") (str "acme")
      (str "widgets"))
    (str "\x7b\"clone_addr\":\"" ++ str "https://github.com/acme/widgets" ++ str "\"\x7d")
    { Method := str "POST"
      URL := sampleConfig.GiteaUrl ++ str "/api/v1/repos/migrate"
      Header := []
      Body := str "\x7b\"clone_addr\":\"" ++ str "https://github.com/acme/widgets"
        ++ str "\"\x7d" }
    { Status := str "500 Internal Server Error", StatusCode := 500 }
    rfl rfl rfl

/-- C4: for every accepted URL the request's `RepoName` is the fourth segment
of the URL, then `"__"`, then the fifth segment; for
`"https://github.com/acme/widgets"` it is `"acme__widgets"`. -/
theorem createImportRequest_RepoName (config : applicationConfiguration) (url : GoString)
    (request : giteaImportRequest) (h : createImportRequest config url = .ok request) :
    (∃ owner repo, (strings.Split url slash)[3]? = some owner ∧
      (strings.Split url slash)[4]? = some repo ∧
      request.RepoName = owner ++ str "__" ++ repo) ∧
    (∃ sample, createImportRequest config (str "https://github.com/acme/widgets") = .ok sample ∧
      sample.RepoName = str "acme__widgets") := by
  constructor
  · obtain ⟨p0, p1, owner, repo, hparts, -, -, rfl⟩ :=
      (createImportRequest_eq_ok_iff config url request).mp h
    exact ⟨owner, repo, by simp [hparts], by simp [hparts], rfl⟩
  · refine ⟨builtRequest config (str "https://github.com/acme/widgets") (str "acme")
      (str "widgets"), ?_, ?_⟩
    swap
    · show str "acme" ++ str "__" ++ str "widgets" = str "acme__widgets"
      decide
    rw [createImportRequest_eq_ok_iff]
    exact ⟨str "https:", [], str "acme", str "widgets", Split_sample, by decide, by decide, rfl⟩

/-- Witness of C4 at the sample URL. -/
theorem createImportRequest_RepoName_witness :
    (∃ owner repo,
      (strings.Split (str "https://github.com/acme/widgets") slash)[3]? = some owner ∧
      (strings.Split (str "https://github.com/acme/widgets") slash)[4]? = some repo ∧
      (builtRequest sampleConfig (str "https://github.com/acme/widgets") (str "acme")
        (str "widgets")).RepoName = owner ++ str "__" ++ repo) ∧
    (∃ sample, createImportRequest sampleConfig (str "https://github.com/acme/widgets")
        = .ok sample ∧ sample.RepoName = str "acme__widgets") :=
  createImportRequest_RepoName sampleConfig (str "https://github.com/acme/widgets")
    (builtRequest sampleConfig (str "https://github.com/acme/widgets") (str "acme")
      (str "widgets")) (by decide)

/-- C5: for every configuration and every accepted URL the request has
`Mirror = true` and `Service = "github"`, `CloneAddress` is the URL itself,
`AuthToken` the GitHub token, `RepoOwner` the Gitea organization, and the mirror
interval and the eight toggles are those of the configuration. -/
theorem createImportRequest_fields (config : applicationConfiguration) (url : GoString)
    (request : giteaImportRequest) (h : createImportRequest config url = .ok request) :
    request.Mirror = true ∧ request.Service = str "github" ∧
    request.CloneAddress = url ∧ request.AuthToken = config.GithubToken ∧
    request.RepoOwner = config.GiteaOrganization ∧
    request.MirrorInterval = config.MirrorInterval ∧
    request.Private = config.Private ∧ request.Issues = config.Issues ∧
    request.Labels = config.Labels ∧ request.Lfs = config.Lfs ∧
    request.Milestones = config.Milestones ∧ request.PullRequests = config.PullRequests ∧
    request.Releases = config.Releases ∧ request.Wiki = config.Wiki := by
  obtain ⟨p0, p1, owner, repo, -, -, -, rfl⟩ :=
    (createImportRequest_eq_ok_iff config url request).mp h
  simp [builtRequest]

/-- Witness of C5 at the sample configuration and URL. -/
theorem createImportRequest_fields_witness :
    ∃ request, createImportRequest sampleConfig (str "https://github.com/acme/widgets")
        = .ok request ∧
      request.Mirror = true ∧ request.Service = str "github" ∧
      request.CloneAddress = str "https://github.com/acme/widgets" ∧
      request.AuthToken = str "ghp_token" ∧ request.RepoOwner = str "mirrors" ∧
      request.MirrorInterval = str "24h0m0s" ∧
      request.Private = false ∧ request.Issues = true ∧
      request.Labels = false ∧ request.Lfs = true ∧
      request.Milestones = false ∧ request.PullRequests = true ∧
      request.Releases = false ∧ request.Wiki = true :=
  ⟨builtRequest sampleConfig (str "https://github.com/acme/widgets") (str "acme")
      (str "widgets"), by decide,
    createImportRequest_fields sampleConfig (str "https://github.com/acme/widgets")
      (builtRequest sampleConfig (str "https://github.com/acme/widgets") (str "acme")
        (str "widgets")) (by decide)⟩

/-- C3: for every input list and every behaviour of the HTTP calls, the loop of
`main` attempts every line once, in input order.  The calls it makes are
`createImportRequest` on each element, followed by `sendRequest` exactly when
the element was accepted, on the request built from it; and the world it leaves
is the one obtained by running `sendRequest` on the accepted requests, in input
order, each run starting where the previous one ended, whatever the earlier
runs returned.  For a 3-element list whose second element is rejected, the
third element is still attempted: it is passed to `createImportRequest`, and
when it is accepted `sendRequest` runs on its request, right after the run for
the first element if that one was accepted, and no run is made for the second
element. -/
theorem mainLoop_attempts_every_url {σ : Type} (env : Env σ)
    (config : applicationConfiguration) (w : σ) (repos : List GoString) :
    calls (mainLoop env config w repos).1 = repos.flatMap (expectedCalls config) ∧
    (mainLoop env config w repos).2 =
      worldAfterSending env config w (acceptedRequests config repos) ∧
    (∀ first bad third msg, createImportRequest config bad = .error msg →
      Event.callCreateImportRequest third ∈ (mainLoop env config w [first, bad, third]).1 ∧
      (∀ request, createImportRequest config third = .ok request →
        Event.callSendRequest request ∈ (mainLoop env config w [first, bad, third]).1) ∧
      (∀ request, Event.callSendRequest request ∈ (mainLoop env config w [first, bad, third]).1 →
        createImportRequest config first = .ok request ∨
          createImportRequest config third = .ok request) ∧
      (∀ request1 request3, createImportRequest config first = .ok request1 →
        createImportRequest config third = .ok request3 →
        (mainLoop env config w [first, bad, third]).2 =
          (sendRequest env config (sendRequest env config w request1).2 request3).2) ∧
      (∀ msg1 request3, createImportRequest config first = .error msg1 →
        createImportRequest config third = .ok request3 →
        (mainLoop env config w [first, bad, third]).2 =
          (sendRequest env config w request3).2)) := by
  refine ⟨calls_mainLoop env config w repos, world_mainLoop env config w repos, ?_⟩
  intro first bad third msg hbad
  have hcalls := calls_mainLoop env config w [first, bad, third]
  have hworld := world_mainLoop env config w [first, bad, third]
  have hmem : ∀ e, e ∈ calls (mainLoop env config w [first, bad, third]).1 →
      e ∈ (mainLoop env config w [first, bad, third]).1 := fun e he =>
    (List.mem_filter.mp he).1
  have hsend : ∀ request, Event.callSendRequest request
      ∈ (mainLoop env config w [first, bad, third]).1 →
      Event.callSendRequest request ∈ calls (mainLoop env config w [first, bad, third]).1 :=
    fun request he => List.mem_filter.mpr ⟨he, rfl⟩
  rw [hcalls] at hmem hsend
  refine ⟨hmem _ ?_, fun request hreq => hmem _ ?_, fun request he => ?_,
    fun request1 request3 h1 h3 => ?_, fun msg1 request3 h1 h3 => ?_⟩
  · rcases hc : createImportRequest config third with r | m | _ <;>
      simp [expectedCalls, hc]
  · simp [expectedCalls, hreq]
  · have hs := hsend request he
    clear hsend hmem hcalls he hworld
    rcases h1 : createImportRequest config first with r1 | m1 | _ <;>
      rcases h3 : createImportRequest config third with r3 | m3 | _ <;>
      simp [expectedCalls, h1, h3, hbad] at hs ⊢ <;>
      first
        | exact hs.imp Eq.symm Eq.symm
        | exact hs.symm
  · rw [hworld]
    simp [worldAfterSending, acceptedRequests, h1, hbad, h3]
  · rw [hworld]
    simp [worldAfterSending, acceptedRequests, h1, hbad, h3]

/-- Witness of C3: three lines, the second one malformed, on a server that
answers 500 to every request.  The third line is passed to
`createImportRequest`, and the server has received two requests, the one for the
first line and then the one for the third line. -/
theorem mainLoop_attempts_every_url_witness :
    Event.callCreateImportRequest (str "https://github.com/acme/gadgets")
      ∈ (mainLoop recordingEnv sampleConfig []
          [str "https://github.com/acme/widgets", str "github.com/acme",
            str "https://github.com/acme/gadgets"]).1 ∧
    ((mainLoop recordingEnv sampleConfig []
          [str "https://github.com/acme/widgets", str "github.com/acme",
            str "https://github.com/acme/gadgets"]).2).map (fun request => request.Body) =
      [str "\x7b\"clone_addr\":\"https://github.com/acme/widgets\"\x7d",
        str "\x7b\"clone_addr\":\"https://github.com/acme/gadgets\"\x7d"] :=
  ⟨((mainLoop_attempts_every_url recordingEnv sampleConfig [] []).2.2
      (str "https://github.com/acme/widgets") (str "github.com/acme")
      (str "https://github.com/acme/gadgets") (str "malformed github url") (by decide)).1,
    ((mainLoop_attempts_every_url recordingEnv sampleConfig [] []).2.2
      (str "https://github.com/acme/widgets") (str "github.com/acme")
      (str "https://github.com/acme/gadgets") (str "malformed github url")
      (by decide)).2.2.2.1
      (builtRequest sampleConfig (str "https://github.com/acme/widgets") (str "acme")
        (str "widgets"))
      (builtRequest sampleConfig (str "https://github.com/acme/gadgets") (str "acme")
        (str "gadgets"))
      (by decide) (by decide) ▸ (by decide)⟩

/-- C6, as stated, fails: the empty URL does not split into 5 segments, and the
error returned for it is the empty-URL error, not the malformed-URL error. -/
theorem createImportRequest_malformed_counterexample :
    ¬ ∀ (config : applicationConfiguration) (url : GoString),
      (strings.Split url slash).length ≠ 5 →
        createImportRequest config url = .error (str "malformed github url") := by
  intro h
  exact absurd (h sampleConfig [] (by decide)) (by decide)

/-- C6, amended: for every non-empty URL whose split on `'/'` does not yield
exactly 5 segments, `createImportRequest` returns the malformed-URL error. -/
theorem createImportRequest_malformed (config : applicationConfiguration) (url : GoString)
    (hne : url ≠ []) (hlen : (strings.Split url slash).length ≠ 5) :
    createImportRequest config url = .error (str "malformed github url") :=
  createImportRequest_of_length_ne config url hne hlen

/-- Witness of C6, amended: a URL without repository segment. -/
theorem createImportRequest_malformed_witness :
    createImportRequest sampleConfig (str "https://github.com/acme")
      = .error (str "malformed github url") :=
  createImportRequest_malformed sampleConfig (str "https://github.com/acme")
    (by decide) (by decide)

/-- C7 fails on the code: when `sendRequest` returns an error, the loop writes
the error line and then, for the same URL, the success line. -/
theorem mainLoop_two_log_lines_on_send_failure :
    logLines (mainLoop sampleEnv sampleConfig [(str "500 Internal Server Error", 500)]
        [str "https://github.com/acme/widgets"]).1 =
      [.Errorf (str ("unable to send import request for https://github.com/acme/widgets: "
          ++ "wrong status 500 Internal Server Error")),
        .Infof (str "https://github.com/acme/widgets imported")] := by
  decide

/-- C8, as stated, fails: the sample URL extended by `".git"` and the sample URL
extended by a query string are both accepted. -/
theorem createImportRequest_extension_counterexample :
    createImportRequest sampleConfig (str "https://github.com/acme/widgets.git")
      = .ok (builtRequest sampleConfig (str "https://github.com/acme/widgets.git")
          (str "acme") (str "widgets.git")) ∧
    createImportRequest sampleConfig (str "https://github.com/acme/widgets?tab=readme")
      = .ok (builtRequest sampleConfig (str "https://github.com/acme/widgets?tab=readme")
          (str "acme") (str "widgets?tab=readme")) := by
  decide

/-- C8, amended: `createImportRequest` accepts only URLs with exactly 5
segments; a URL `https://github.com/<owner>/<repo>` extended by a trailing `"/"`,
or by any text holding a `"/"`, is rejected with the malformed-URL error; when
owner and repo are non-empty and hold no `"/"`, the URL extended by a text
without `"/"`, such as `".git"` or a query string `"?..."`, is accepted, the
extension being part of the repo segment. -/
theorem createImportRequest_url_extensions (config : applicationConfiguration)
    (owner repo : GoString) (ho : owner ≠ []) (hr : repo ≠ [])
    (hos : slash ∉ owner) (hrs : slash ∉ repo) :
    (∀ url request, createImportRequest config url = .ok request →
      (strings.Split url slash).length = 5) ∧
    createImportRequest config (str "https://github.com/" ++ owner ++ str "/" ++ (repo ++ str "/"))
      = .error (str "malformed github url") ∧
    (∀ ext, slash ∈ ext →
      createImportRequest config (str "https://github.com/" ++ owner ++ str "/" ++ (repo ++ ext))
        = .error (str "malformed github url")) ∧
    (∀ ext, slash ∉ ext →
      createImportRequest config (str "https://github.com/" ++ owner ++ str "/" ++ (repo ++ ext))
        = .ok (builtRequest config
            (str "https://github.com/" ++ owner ++ str "/" ++ (repo ++ ext)) owner (repo ++ ext))) ∧
    createImportRequest config (str "https://github.com/" ++ owner ++ str "/" ++ (repo ++ str ".git"))
      = .ok (builtRequest config
          (str "https://github.com/" ++ owner ++ str "/" ++ (repo ++ str ".git")) owner
          (repo ++ str ".git")) ∧
    (∀ query, slash ∉ query →
      createImportRequest config
          (str "https://github.com/" ++ owner ++ str "/" ++ (repo ++ (str "?" ++ query)))
        = .ok (builtRequest config
            (str "https://github.com/" ++ owner ++ str "/" ++ (repo ++ (str "?" ++ query))) owner
            (repo ++ (str "?" ++ query)))) := by
  have hrej : ∀ ext, slash ∈ ext →
      createImportRequest config (str "https://github.com/" ++ owner ++ str "/" ++ (repo ++ ext))
        = .error (str "malformed github url") := fun ext hext =>
    createImportRequest_of_length_ne config _ (github_url_ne_nil owner _)
      (length_Split_github_url owner _ (by simp [hext]))
  have hacc : ∀ ext, slash ∉ ext →
      createImportRequest config (str "https://github.com/" ++ owner ++ str "/" ++ (repo ++ ext))
        = .ok (builtRequest config
            (str "https://github.com/" ++ owner ++ str "/" ++ (repo ++ ext)) owner
            (repo ++ ext)) := fun ext hext =>
    (createImportRequest_eq_ok_iff config _ _).mpr
      ⟨str "https:", [], owner, repo ++ ext,
        Split_github_url owner (repo ++ ext) hos (by simp [hrs, hext]), ho, by simp [hr], rfl⟩
  refine ⟨?_, hrej _ (by decide), hrej, hacc, hacc _ (by decide), fun query hq => hacc _ ?_⟩
  · intro url request h
    obtain ⟨p0, p1, o, r, hparts, -⟩ := (createImportRequest_eq_ok_iff config url request).mp h
    simp [hparts]
  · have : slash ∉ str "?" := by decide
    simp [this, hq]

/-- Witness of C8, amended, at owner `acme` and repo `widgets`: the trailing
slash is rejected. -/
theorem createImportRequest_url_extensions_witness :
    createImportRequest sampleConfig
        (str "https://github.com/" ++ str "acme" ++ str "/" ++ (str "widgets" ++ str "/"))
      = .error (str "malformed github url") :=
  (createImportRequest_url_extensions sampleConfig (str "acme") (str "widgets")
    (by decide) (by decide) (by decide) (by decide)).2.1

/-- C9, as stated, fails: `a__b/c` and `a/b__c` are both accepted, their owner
segments differ, and both requests are named `a__b__c`. -/
theorem RepoName_collision_counterexample :
    createImportRequest sampleConfig (str "https://github.com/a__b/c")
      = .ok (builtRequest sampleConfig (str "https://github.com/a__b/c") (str "a__b") (str "c")) ∧
    createImportRequest sampleConfig (str "https://github.com/a/b__c")
      = .ok (builtRequest sampleConfig (str "https://github.com/a/b__c") (str "a") (str "b__c")) ∧
    (strings.Split (str "https://github.com/a__b/c") slash)[3]?
      ≠ (strings.Split (str "https://github.com/a/b__c") slash)[3]? ∧
    (builtRequest sampleConfig (str "https://github.com/a__b/c") (str "a__b") (str "c")).RepoName
      = (builtRequest sampleConfig (str "https://github.com/a/b__c") (str "a")
          (str "b__c")).RepoName := by
  decide

/-- C9, amended: for every two accepted URLs none of whose owner segments
contains `"__"` or ends in `"_"`, if the (owner, repo) segment pairs differ, in
particular whenever the owner segments differ, then the two `RepoName` values
differ. -/
theorem RepoName_collision_free (config : applicationConfiguration) (url1 url2 : GoString)
    (request1 request2 : giteaImportRequest) (owner1 repo1 owner2 repo2 : GoString)
    (h1 : createImportRequest config url1 = .ok request1)
    (h2 : createImportRequest config url2 = .ok request2)
    (ho1 : (strings.Split url1 slash)[3]? = some owner1)
    (hr1 : (strings.Split url1 slash)[4]? = some repo1)
    (ho2 : (strings.Split url2 slash)[3]? = some owner2)
    (hr2 : (strings.Split url2 slash)[4]? = some repo2)
    (hi1 : ¬ str "__" <:+: owner1) (ht1 : ¬ str "_" <:+ owner1)
    (hi2 : ¬ str "__" <:+: owner2) (ht2 : ¬ str "_" <:+ owner2) :
    ((owner1, repo1) ≠ (owner2, repo2) → request1.RepoName ≠ request2.RepoName) ∧
    (owner1 ≠ owner2 → request1.RepoName ≠ request2.RepoName) := by
  obtain ⟨a0, a1, o1, r1, hparts1, -, -, rfl⟩ :=
    (createImportRequest_eq_ok_iff config url1 request1).mp h1
  obtain ⟨b0, b1, o2, r2, hparts2, -, -, rfl⟩ :=
    (createImportRequest_eq_ok_iff config url2 request2).mp h2
  simp only [hparts1, hparts2, List.getElem?_cons_succ, List.getElem?_cons_zero,
    Option.some.injEq] at ho1 hr1 ho2 hr2
  subst ho1 hr1 ho2 hr2
  have key : (builtRequest config url1 o1 r1).RepoName = (builtRequest config url2 o2 r2).RepoName →
      o1 = o2 ∧ r1 = r2 := fun h => RepoName_injective _ _ _ _ hi1 ht1 hi2 ht2 h
  exact ⟨fun hne h => hne (by rw [(key h).1, (key h).2]), fun hne h => hne (key h).1⟩

/-- Witness of C9, amended: the owners `my_org` and `acme`, the first one with
an underscore, both with the repository `widgets`. -/
theorem RepoName_collision_free_witness :
    (builtRequest sampleConfig (str "https://github.com/my_org/widgets") (str "my_org")
        (str "widgets")).RepoName
      ≠ (builtRequest sampleConfig (str "https://github.com/acme/widgets") (str "acme")
        (str "widgets")).RepoName :=
  (RepoName_collision_free sampleConfig (str "https://github.com/my_org/widgets")
    (str "https://github.com/acme/widgets") _ _ (str "my_org") (str "widgets") (str "acme")
    (str "widgets") (by decide) (by decide) (by decide) (by decide) (by decide) (by decide)
    (by decide) (by decide) (by decide) (by decide)).2 (by decide)

/-- C10: for every file content ending in a newline, the split on `"\n"` made
by `main` ends with the empty string; `createImportRequest` returns the
empty-URL error on it; `createImportRequest` panics on no input, its index
accesses being in range; and the run of `main` on such a file does not panic and
ends with the line logging the empty-URL error. -/
theorem createImportRequest_trailing_newline (config : applicationConfiguration) :
    (∀ content : GoString,
      (strings.Split (content ++ [newline]) newline).getLast? = some []) ∧
    createImportRequest config [] = .error (str "empty repo url") ∧
    (∀ url, createImportRequest config url ≠ .panic) ∧
    (∀ (σ : Type) (env : Env σ) (w : σ) (content : GoString),
      Event.panic ∉ (main env config w (.ok (content ++ [newline]))).1 ∧
      (main env config w (.ok (content ++ [newline]))).1.getLast? =
        some (.Errorf (str "unable to create import request for " ++ [] ++ str ": "
          ++ str "empty repo url"))) := by
  refine ⟨fun content => ?_, by simp [createImportRequest],
    createImportRequest_ne_panic config, fun σ env w content => ⟨?_, ?_⟩⟩
  · rw [Split_append_sep]
    simp
  · exact panic_not_mem_mainLoop env config w _
  · simp only [main, Split_append_sep, mainLoop_append]
    simp [mainLoop, loopBody, createImportRequest]

end RepoMigration
